import Mathlib

/-!
Shallow embedding of the service-simulation and test-orchestration core of
the `github-integration-testing-demo` repository.

Source files embedded:
* `src/main.go` — `MockService` (the Simulated Service) with its five
  operations, `ServiceConfig` / `LoadServiceConfig`, and the service-type
  defaulting performed in `main`.
* `tests/integration_test.go` — `MockIntegrationTest` and its `Run` method
  (the Operation Scenario runner), the category flags, and the
  run-everything fallback in `TestIntegrationSuite`.
* The Connection Policy (bounded connect retry) is documented in
  `docs/RETRY_LOGIC.md` but its code is not present in the repository's
  source; it is modelled from the spec below (see `connectWithRetry`).

Modelling conventions:
* Go's `rand.Float32()` draws are passed in explicitly as rational numbers
  `r` with `0 ≤ r < 1`; `shouldFail` compares a draw against the configured
  failure rate exactly as `rand.Float32() < m.failureRate` does.
* Go `float32` failure-rate literals are modelled as exact rationals; the
  claims under study only use the rates 0 and 1, where this is exact.
* The Go `map[string]string` is modelled as an association list with
  first-match lookup and in-place overwrite on insert, which matches the
  observable behaviour of a Go map (one binding per key).
* Errors are the exact `fmt.Errorf` message strings, carried in `Except`.
* `time.Sleep` consumes wall-clock time only and has no effect on any value
  computed; it is not modelled.
-/

/-- One binding store lookup: first match in the association list, mirroring
the single-binding-per-key semantics of Go's `m.data[key]` read. -/
def storeLookup (m : List (String × String)) (k : String) : Option String :=
  match m with
  | [] => none
  | (k', v') :: rest => if k' = k then some v' else storeLookup rest k

/-- Store update: overwrite the existing binding for `k` if present,
otherwise append a new binding, mirroring Go's `m.data[key] = value`. -/
def storePut (m : List (String × String)) (k v : String) : List (String × String) :=
  match m with
  | [] => [(k, v)]
  | (k', v') :: rest => if k' = k then (k, v) :: rest else (k', v') :: storePut rest k v

/-- MockService from `src/main.go`: name, response latency (milliseconds),
failure rate, and the in-memory key-value store. -/
structure MockService where
  name : String
  responseTime : Nat
  failureRate : Rat
  data : List (String × String)

/-- NewMockService from `src/main.go`: fresh service with an empty store. -/
def NewMockService (name : String) (responseTime : Nat) (failureRate : Rat) : MockService :=
  { name := name, responseTime := responseTime, failureRate := failureRate, data := [] }

/-- shouldFail from `src/main.go`: `rand.Float32() < m.failureRate`, with the
random draw `r` passed in explicitly. -/
def MockService.shouldFail (m : MockService) (r : Rat) : Bool :=
  r < m.failureRate

/-- Connect from `src/main.go`: fails with a connection error naming the
service when the failure draw hits, otherwise succeeds. Returns the result
together with the (unchanged) service state. -/
def MockService.connect (m : MockService) (r : Rat) : Except String Unit × MockService :=
  if m.shouldFail r then
    (.error ("failed to connect to " ++ m.name), m)
  else
    (.ok (), m)

/-- Ping from `src/main.go`: health check at half latency; fails naming the
service when the failure draw hits, otherwise succeeds. -/
def MockService.ping (m : MockService) (r : Rat) : Except String Unit × MockService :=
  if m.shouldFail r then
    (.error (m.name ++ " is not responding"), m)
  else
    (.ok (), m)

/-- GetData from `src/main.go`: the failure draw is evaluated first; then a
missing key yields a not-found error naming the key; otherwise the stored
value is returned. -/
def MockService.getData (m : MockService) (key : String) (r : Rat) :
    Except String String × MockService :=
  if m.shouldFail r then
    (.error ("failed to get data from " ++ m.name), m)
  else
    match storeLookup m.data key with
    | some val => (.ok val, m)
    | none => (.error ("key " ++ key ++ " not found"), m)

/-- PutData from `src/main.go`: fails on the failure draw leaving the store
untouched, otherwise inserts/overwrites the binding. -/
def MockService.putData (m : MockService) (key value : String) (r : Rat) :
    Except String Unit × MockService :=
  if m.shouldFail r then
    (.error ("failed to put data to " ++ m.name), m)
  else
    (.ok (), { m with data := storePut m.data key value })

/-- ListKeys from `src/main.go`: fails on the failure draw, otherwise returns
the current keys of the store (one order among the unspecified ones a Go map
iteration may produce). -/
def MockService.listKeys (m : MockService) (r : Rat) :
    Except String (List String) × MockService :=
  if m.shouldFail r then
    (.error ("failed to list keys from " ++ m.name), m)
  else
    (.ok (m.data.map Prod.fst), m)

/-- ServiceConfig from `src/main.go`. -/
structure ServiceConfig where
  Name : String
  svcType : String
  ResponseTime : Nat
  FailureRate : Rat

/-- Go `os.Getenv`: the empty string stands for an absent variable. -/
def getenv (env : String → Option String) (name : String) : String :=
  (env name).getD ""

/-- LoadServiceConfig from `src/main.go`: the three fixed service
configurations, reading the type labels from the environment. -/
def LoadServiceConfig (env : String → Option String) : List ServiceConfig :=
  [ { Name := "S3-like Storage", svcType := getenv env "STORAGE_TYPE",
      ResponseTime := 100, FailureRate := 1/100 },
    { Name := "Database", svcType := getenv env "DB_TYPE",
      ResponseTime := 50, FailureRate := 2/100 },
    { Name := "External API", svcType := getenv env "API_TYPE",
      ResponseTime := 200, FailureRate := 5/100 } ]

/-- The defaulting performed in `main` of `src/main.go`: an empty type label
becomes `"mock"`. -/
def defaultServiceType (t : String) : String :=
  if t = "" then "mock" else t

/-- The effective service-type labels `main` prints while initializing the
three services, after defaulting. -/
def effectiveServiceTypes (env : String → Option String) : List String :=
  (LoadServiceConfig env).map (fun cfg => defaultServiceType cfg.svcType)

/-- MockIntegrationTest from `tests/integration_test.go`: scenario name, total
duration budget (milliseconds), per-step failure rate, and the ordered list of
named operations (steps). -/
structure MockIntegrationTest where
  name : String
  duration : Nat
  failureRate : Rat
  operations : List String

/-- NewMockIntegrationTest from `tests/integration_test.go`: the default
eight-step operation sequence. -/
def NewMockIntegrationTest (name : String) (duration : Nat) (failureRate : Rat) :
    MockIntegrationTest :=
  { name := name, duration := duration, failureRate := failureRate,
    operations :=
      [ "Connecting to service", "Authenticating", "Creating test data",
        "Verifying data integrity", "Performing read operations",
        "Performing write operations", "Testing error handling",
        "Cleaning up test data" ] }

/-- Outcome of one scenario run: either all steps completed, or the run
stopped at the (zero-based) index and name of the first step whose injected
failure fired. -/
inductive ScenarioOutcome where
  | passed
  | failed (stepIndex : Nat) (stepName : String)
deriving DecidableEq, Repr

/-- Step loop of `Run` from `tests/integration_test.go`: for each operation in
order, the step fails exactly when failure simulation is enabled and the
step's random draw is below the failure rate; the run stops at the first
failing step. `draws i` is the random draw of the step at index `i`. -/
def runSteps (simulateFailure : Bool) (rate : Rat) (draws : Nat → Rat) :
    List String → Nat → ScenarioOutcome
  | [], _ => .passed
  | op :: rest, i =>
    if simulateFailure && decide (draws i < rate) then .failed i op
    else runSteps simulateFailure rate draws rest (i + 1)

/-- Run from `tests/integration_test.go`: execute the scenario's steps in
order with per-step failure injection. -/
def MockIntegrationTest.run (m : MockIntegrationTest) (simulateFailure : Bool)
    (draws : Nat → Rat) : ScenarioOutcome :=
  runSteps simulateFailure m.failureRate draws m.operations 0

/-- The boolean flag state of `tests/integration_test.go`: the three category
flags, the failure-simulation flag and the verbose flag. -/
structure TestFlags where
  storage : Bool
  database : Bool
  api : Bool
  fail : Bool
  verbose : Bool
deriving DecidableEq, Repr

/-- Run-everything fallback of TestIntegrationSuite in
`tests/integration_test.go`: when no category flag is set, all three category
flags are switched on; otherwise the flags are left untouched. -/
def applySuiteFallback (f : TestFlags) : TestFlags :=
  if !f.storage && !f.database && !f.api then
    { f with storage := true, database := true, api := true }
  else f

/-- The storage scenarios of TestStorageIntegration in
`tests/integration_test.go`. -/
def storageScenarios : List String :=
  ["Upload", "Download", "List", "Delete", "Metadata"]

/-- The database scenarios of TestDatabaseIntegration in
`tests/integration_test.go`. -/
def databaseScenarios : List String :=
  ["Connection", "Migration", "CRUD", "Transaction", "Performance"]

/-- The API scenarios of TestAPIIntegration in `tests/integration_test.go`. -/
def apiScenarios : List String :=
  ["Authentication", "GET", "POST", "PUT", "DELETE", "RateLimit"]

/-- The set of scenarios executed for a given flag state: each category test
skips itself unless its flag is set, and otherwise runs its fixed list of
named subtests. -/
def selectedScenarios (f : TestFlags) : List String :=
  (if f.storage then storageScenarios else []) ++
  (if f.database then databaseScenarios else []) ++
  (if f.api then apiScenarios else [])

/-- One run of the test binary of `tests/integration_test.go`, in Go's
source-order test execution: TestStorageIntegration, TestDatabaseIntegration
and TestAPIIntegration evaluate their skip guards against the current flag
state and run their scenario lists, and only afterwards does
TestIntegrationSuite — the last test in the file — apply the run-everything
fallback to the flag globals. The first component is the list of scenarios
the binary actually executed, the second the flag state TestIntegrationSuite
leaves behind (and logs). -/
def testBinaryRun (f : TestFlags) : List String × TestFlags :=
  (selectedScenarios f, applySuiteFallback f)

/-- Result of running the Connection Policy: the final outcome, the number of
times the wrapped connect operation was invoked, and the retry-notice log
lines emitted along the way. -/
structure RetryResult where
  result : Except String Unit
  attempts : Nat
  retryLog : List String
deriving Repr

/-- Terminal error of the Connection Policy: names the service and the number
of attempts made (spec section 4.2). -/
def terminalConnectMsg (service : String) (attempts : Nat) : String :=
  "failed to connect to " ++ service ++ " after " ++ toString attempts ++ " attempts"

/-- Retry notice of the Connection Policy, with the `attempt/maxRetries-1`
counter shown in `docs/RETRY_LOGIC.md`. -/
def retryNoticeMsg (service : String) (attempt maxRetries : Nat) : String :=
  "  Retry " ++ toString attempt ++ "/" ++ toString (maxRetries - 1) ++
    " connecting to " ++ service ++ "..."

/-- Modelled from the spec: the Connection Policy's retry loop is described
in section 4.2 and in `docs/RETRY_LOGIC.md` but is not implemented in
`src/main.go` (whose `Connect` makes a single attempt). Loop body over the
remaining-attempt budget: run the wrapped connect on the current attempt; a
success short-circuits immediately; a failure with budget left logs a retry
notice `attempt/maxRetries-1` naming the service and tries again; a failure
on the last attempt yields a terminal error naming the service and the
number of attempts made. -/
def retryLoop (connect : Nat → Except String Unit) (maxRetries : Nat) (service : String) :
    Nat → Nat → List String → RetryResult
  | 0, done, log =>
    { result := .error (terminalConnectMsg service done),
      attempts := done, retryLog := log.reverse }
  | remaining + 1, done, log =>
    match connect done with
    | .ok _ => { result := .ok (), attempts := done + 1, retryLog := log.reverse }
    | .error _ =>
      if remaining = 0 then
        { result := .error (terminalConnectMsg service (done + 1)),
          attempts := done + 1, retryLog := log.reverse }
      else
        retryLoop connect maxRetries service remaining (done + 1)
          (retryNoticeMsg service (done + 1) maxRetries :: log)

/-- Modelled from the spec: the Connection Policy (section 4.2 and
`docs/RETRY_LOGIC.md`). `connect i` is the outcome of the wrapped connect
operation on its i-th invocation (0-based), so deterministic fakes that fail
a fixed number of times before succeeding can be wrapped, as the spec
requires. -/
def connectWithRetry (connect : Nat → Except String Unit) (maxRetries : Nat)
    (service : String) : RetryResult :=
  retryLoop connect maxRetries service maxRetries 0 []

/-! ## Helper lemmas -/

/-- Looking up a key right after storing it returns the stored value. -/
theorem storeLookup_storePut_self (d : List (String × String)) (k v : String) :
    storeLookup (storePut d k v) k = some v := by
  induction d with
  | nil => simp [storePut, storeLookup]
  | cons hd tl ih =>
    obtain ⟨k', v'⟩ := hd
    by_cases hk : k' = k
    · simp [storePut, storeLookup, hk]
    · simp [storePut, storeLookup, hk, ih]

/-- When no step's draw is below the failure rate, the step loop completes
every step. -/
theorem runSteps_passed (sf : Bool) (rate : Rat) (draws : Nat → Rat)
    (h : ∀ i, ¬ draws i < rate) :
    ∀ ops i, runSteps sf rate draws ops i = .passed := by
  intro ops
  induction ops with
  | nil => intro i; rfl
  | cons op rest ih =>
    intro i
    simp [runSteps, h i, ih (i + 1)]

/-! ## Claim theorems -/

/-- C1: contrary to the claim, the run-everything fallback fires only inside
TestIntegrationSuite, the last test in source order, after the three category
tests have already evaluated their skip guards: with all three category flags
false the test binary executes no scenario at all, while with all three flags
true it executes all sixteen, so the two invocations do not execute the same
scenario set; the fallback does flip the flag state to all-enabled, but only
after execution is decided. -/
theorem suite_all_false_executes_no_scenarios (fl v : Bool) :
    (testBinaryRun ⟨false, false, false, fl, v⟩).1 = [] ∧
    (testBinaryRun ⟨true, true, true, fl, v⟩).1 =
      storageScenarios ++ databaseScenarios ++ apiScenarios ∧
    (testBinaryRun ⟨false, false, false, fl, v⟩).1 ≠
      (testBinaryRun ⟨true, true, true, fl, v⟩).1 ∧
    (testBinaryRun ⟨false, false, false, fl, v⟩).2 = ⟨true, true, true, fl, v⟩ := by
  refine ⟨rfl, rfl, ?_, rfl⟩
  simp [testBinaryRun, selectedScenarios, storageScenarios, databaseScenarios, apiScenarios]

/-- C7: when the environment variables STORAGE_TYPE, DB_TYPE and API_TYPE are
absent, the effective service-type label defaults to "mock" for all three
service categories. -/
theorem absent_env_defaults_to_mock (env : String → Option String)
    (hs : env "STORAGE_TYPE" = none) (hd : env "DB_TYPE" = none)
    (ha : env "API_TYPE" = none) :
    effectiveServiceTypes env = ["mock", "mock", "mock"] := by
  simp [effectiveServiceTypes, LoadServiceConfig, getenv, hs, hd, ha, defaultServiceType]

/-- Witness for C7 at the empty environment. -/
theorem absent_env_defaults_to_mock_witness :
    effectiveServiceTypes (fun _ => none) = ["mock", "mock", "mock"] :=
  absent_env_defaults_to_mock (fun _ => none) rfl rfl rfl

/-- C9: among the five service operations only putData mutates the store:
connect, ping, getData and listKeys leave the store mapping exactly
unchanged, for every state, input and failure-draw outcome. -/
theorem only_putData_mutates_store (m : MockService) (k : String) (r : Rat) :
    (m.connect r).2.data = m.data ∧
    (m.ping r).2.data = m.data ∧
    (m.getData k r).2.data = m.data ∧
    (m.listKeys r).2.data = m.data := by
  refine ⟨?_, ?_, ?_, ?_⟩
  · unfold MockService.connect; split <;> rfl
  · unfold MockService.ping; split <;> rfl
  · unfold MockService.getData; split
    · rfl
    · split <;> rfl
  · unfold MockService.listKeys; split <;> rfl

/-- C10: putData is atomic with respect to failure injection: when the
failure draw hits, putData reports the transient error and the whole service
state, in particular its store, is exactly unchanged. -/
theorem putData_failure_leaves_store_unchanged (m : MockService) (k v : String) (r : Rat)
    (h : r < m.failureRate) :
    (m.putData k v r).1 = .error ("failed to put data to " ++ m.name) ∧
    (m.putData k v r).2 = m ∧
    (m.putData k v r).2.data = m.data := by
  have hf : m.shouldFail r = true := by
    simp [MockService.shouldFail, h]
  refine ⟨?_, ?_, ?_⟩ <;> simp [MockService.putData, hf]

/-- Witness for C10 at a concrete always-failing service. -/
theorem putData_failure_leaves_store_unchanged_witness :
    ((NewMockService "S" 100 1).putData "k" "v" 0).1 =
      .error "failed to put data to S" ∧
    ((NewMockService "S" 100 1).putData "k" "v" 0).2 = NewMockService "S" 100 1 ∧
    ((NewMockService "S" 100 1).putData "k" "v" 0).2.data =
      (NewMockService "S" 100 1).data :=
  putData_failure_leaves_store_unchanged (NewMockService "S" 100 1) "k" "v" 0
    (by norm_num [NewMockService])

/-- C8: getData evaluates the failure draw first: a hitting draw yields the
transient error regardless of the store; otherwise an absent key yields the
not-found error naming the key; otherwise the stored value is returned. -/
theorem getData_draw_then_lookup (m : MockService) (k : String) (r : Rat) :
    (r < m.failureRate →
      (m.getData k r).1 = .error ("failed to get data from " ++ m.name)) ∧
    (¬ r < m.failureRate → storeLookup m.data k = none →
      (m.getData k r).1 = .error ("key " ++ k ++ " not found")) ∧
    (∀ v, ¬ r < m.failureRate → storeLookup m.data k = some v →
      (m.getData k r).1 = .ok v) := by
  refine ⟨fun h => ?_, fun h hn => ?_, fun v h hv => ?_⟩
  · simp [MockService.getData, MockService.shouldFail, h]
  · simp [MockService.getData, MockService.shouldFail, h, hn]
  · simp [MockService.getData, MockService.shouldFail, h, hv]

/-- Witness for C8: all three getData branches at concrete services; the
failure draw shadows even a present key. -/
theorem getData_draw_then_lookup_witness :
    (({ NewMockService "S" 100 1 with data := [("k", "v")] } : MockService).getData "k" 0).1 =
      .error ("failed to get data from " ++ "S") ∧
    ((NewMockService "S" 100 0).getData "k" 0).1 = .error ("key " ++ "k" ++ " not found") ∧
    (({ NewMockService "S" 100 0 with data := [("k", "v")] } : MockService).getData "k" 0).1 =
      .ok "v" :=
  ⟨(getData_draw_then_lookup _ "k" 0).1 (by norm_num [NewMockService]),
   (getData_draw_then_lookup _ "k" 0).2.1 (by norm_num [NewMockService]) rfl,
   (getData_draw_then_lookup _ "k" 0).2.2 "v" (by norm_num [NewMockService]) rfl⟩

/-- C5: with failure rate 0 (failure simulation disabled), putData succeeds
and an immediately following getData on the same key returns exactly the
stored value. -/
theorem putData_then_getData (m : MockService) (k v : String) (r1 r2 : Rat)
    (hrate : m.failureRate = 0) (h1 : 0 ≤ r1) (h2 : 0 ≤ r2) :
    (m.putData k v r1).1 = .ok () ∧
    ((m.putData k v r1).2.getData k r2).1 = .ok v := by
  have hf1 : m.shouldFail r1 = false := by
    simp [MockService.shouldFail, hrate, not_lt.mpr h1]
  have hstate : (m.putData k v r1).2 = { m with data := storePut m.data k v } := by
    simp [MockService.putData, hf1]
  constructor
  · simp [MockService.putData, hf1]
  · rw [hstate]
    have hf2 : ({ m with data := storePut m.data k v } : MockService).shouldFail r2 = false := by
      simp [MockService.shouldFail, hrate, not_lt.mpr h2]
    simp [MockService.getData, hf2, storeLookup_storePut_self]

/-- Witness for C5 at a concrete zero-rate service. -/
theorem putData_then_getData_witness :
    ((NewMockService "S" 100 0).putData "k" "v" 0).1 = .ok () ∧
    (((NewMockService "S" 100 0).putData "k" "v" 0).2.getData "k" 0).1 = .ok "v" :=
  putData_then_getData (NewMockService "S" 100 0) "k" "v" 0 0 rfl le_rfl le_rfl

/-- C6: on a fresh zero-rate service, listKeys after putData of k1 and k2
succeeds and returns, viewed as a set, exactly the pair of stored keys, with
no duplicate entries. -/
theorem listKeys_after_two_puts (name : String) (rt : Nat) (k1 k2 v1 v2 : String)
    (r1 r2 r3 : Rat) (h1 : 0 ≤ r1) (h2 : 0 ≤ r2) (h3 : 0 ≤ r3) :
    ∃ keys : List String,
      ((((NewMockService name rt 0).putData k1 v1 r1).2.putData k2 v2 r2).2.listKeys r3).1 =
        .ok keys ∧ keys.toFinset = ({k1, k2} : Finset String) ∧ keys.Nodup := by
  have hn1 : ¬ r1 < (0 : Rat) := not_lt.mpr h1
  have hn2 : ¬ r2 < (0 : Rat) := not_lt.mpr h2
  have hn3 : ¬ r3 < (0 : Rat) := not_lt.mpr h3
  by_cases hk : k1 = k2
  · subst hk
    refine ⟨[k1], ?_, ?_, ?_⟩
    · simp [NewMockService, MockService.putData, MockService.listKeys,
        MockService.shouldFail, storePut, hn1, hn2, hn3]
    · simp
    · simp
  · refine ⟨[k1, k2], ?_, ?_, ?_⟩
    · simp [NewMockService, MockService.putData, MockService.listKeys,
        MockService.shouldFail, storePut, hn1, hn2, hn3, hk]
    · simp
    · simp [hk]

/-- Witness for C6 at two concrete distinct keys. -/
theorem listKeys_after_two_puts_witness :
    ∃ keys : List String,
      ((((NewMockService "S" 100 0).putData "a" "x" 0).2.putData "b" "y" 0).2.listKeys 0).1 =
        .ok keys ∧ keys.toFinset = ({"a", "b"} : Finset String) ∧ keys.Nodup :=
  listKeys_after_two_puts "S" 100 "a" "b" "x" "y" 0 0 0 le_rfl le_rfl le_rfl

/-- C3: with failure rate 1 and failure simulation enabled, every scenario
with at least one step fails at its first step (the first draw is always
below the threshold 1), and every service operation fails with its error. -/
theorem rate_one_fails_first_step (m : MockIntegrationTest) (svc : MockService)
    (draws : Nat → Rat) (r : Rat) (key value : String)
    (hm : m.failureRate = 1) (hsvc : svc.failureRate = 1)
    (hops : m.operations ≠ [])
    (hd : draws 0 < 1) (hr : r < 1) :
    m.run true draws = .failed 0 m.operations.headI ∧
    (svc.connect r).1 = .error ("failed to connect to " ++ svc.name) ∧
    (svc.ping r).1 = .error (svc.name ++ " is not responding") ∧
    (svc.getData key r).1 = .error ("failed to get data from " ++ svc.name) ∧
    (svc.putData key value r).1 = .error ("failed to put data to " ++ svc.name) ∧
    (svc.listKeys r).1 = .error ("failed to list keys from " ++ svc.name) := by
  have hf : svc.shouldFail r = true := by
    simp [MockService.shouldFail, hsvc, hr]
  obtain ⟨op, rest, hcons⟩ := List.exists_cons_of_ne_nil hops
  refine ⟨?_, ?_, ?_, ?_, ?_, ?_⟩
  · rw [MockIntegrationTest.run, hm, hcons]
    simp [runSteps, hd]
  · simp [MockService.connect, hf]
  · simp [MockService.ping, hf]
  · simp [MockService.getData, hf]
  · simp [MockService.putData, hf]
  · simp [MockService.listKeys, hf]

/-- Witness for C3 at a concrete rate-1 scenario and service with draw 0. -/
theorem rate_one_fails_first_step_witness :
    (NewMockIntegrationTest "T" 500 1).run true (fun _ => 0) =
      .failed 0 "Connecting to service" ∧
    ((NewMockService "S" 100 1).connect 0).1 = .error ("failed to connect to " ++ "S") ∧
    ((NewMockService "S" 100 1).ping 0).1 = .error ("S" ++ " is not responding") ∧
    ((NewMockService "S" 100 1).getData "k" 0).1 = .error ("failed to get data from " ++ "S") ∧
    ((NewMockService "S" 100 1).putData "k" "v" 0).1 = .error ("failed to put data to " ++ "S") ∧
    ((NewMockService "S" 100 1).listKeys 0).1 = .error ("failed to list keys from " ++ "S") :=
  rate_one_fails_first_step (NewMockIntegrationTest "T" 500 1) (NewMockService "S" 100 1)
    (fun _ => 0) 0 "k" "v" rfl rfl (by simp [NewMockIntegrationTest]) (by norm_num) (by norm_num)

/-- C4: with failure rate 0 and failure simulation enabled, the simulated
failure branch is unreachable: every scenario run completes all steps and
passes, and every service operation succeeds (getData given a present key). -/
theorem rate_zero_all_pass (m : MockIntegrationTest) (svc : MockService)
    (draws : Nat → Rat) (r : Rat) (key value stored : String)
    (hm : m.failureRate = 0) (hsvc : svc.failureRate = 0)
    (hdraws : ∀ i, 0 ≤ draws i) (hr : 0 ≤ r) :
    m.run true draws = .passed ∧
    (svc.connect r).1 = .ok () ∧
    (svc.ping r).1 = .ok () ∧
    (storeLookup svc.data key = some stored → (svc.getData key r).1 = .ok stored) ∧
    (svc.putData key value r).1 = .ok () ∧
    (svc.listKeys r).1 = .ok (svc.data.map Prod.fst) := by
  have hf : svc.shouldFail r = false := by
    simp [MockService.shouldFail, hsvc, not_lt.mpr hr]
  refine ⟨?_, ?_, ?_, fun hkey => ?_, ?_, ?_⟩
  · rw [MockIntegrationTest.run, hm]
    exact runSteps_passed true 0 draws (fun i => not_lt.mpr (hdraws i)) m.operations 0
  · simp [MockService.connect, hf]
  · simp [MockService.ping, hf]
  · simp [MockService.getData, hf, hkey]
  · simp [MockService.putData, hf]
  · simp [MockService.listKeys, hf]

/-- Witness for C4 at a concrete zero-rate scenario and service holding one
binding. -/
theorem rate_zero_all_pass_witness :
    (NewMockIntegrationTest "T" 500 0).run true (fun _ => 0) = .passed ∧
    (({ NewMockService "S" 100 0 with data := [("k", "x")] } : MockService).connect 0).1 =
      .ok () ∧
    (({ NewMockService "S" 100 0 with data := [("k", "x")] } : MockService).ping 0).1 =
      .ok () ∧
    (storeLookup ({ NewMockService "S" 100 0 with data := [("k", "x")] } : MockService).data "k" =
        some "x" →
      (({ NewMockService "S" 100 0 with data := [("k", "x")] } : MockService).getData "k" 0).1 =
        .ok "x") ∧
    (({ NewMockService "S" 100 0 with data := [("k", "x")] } : MockService).putData "k" "v" 0).1 =
      .ok () ∧
    (({ NewMockService "S" 100 0 with data := [("k", "x")] } : MockService).listKeys 0).1 =
      .ok (({ NewMockService "S" 100 0 with data := [("k", "x")] } : MockService).data.map
        Prod.fst) :=
  rate_zero_all_pass (NewMockIntegrationTest "T" 500 0)
    { NewMockService "S" 100 0 with data := [("k", "x")] }
    (fun _ => 0) 0 "k" "v" "x" rfl rfl (fun _ => le_rfl) le_rfl

/-- C2: the Connection Policy with maximum retry count 3 around a connect
that fails on every attempt invokes the wrapped connect exactly 3 times and
reports the terminal connection failure naming the service; a connect whose
first attempt succeeds short-circuits after a single invocation. -/
theorem connect_policy_three_attempts (service : String) :
    (∀ connect : Nat → Except String Unit,
      (∀ i, ∃ e, connect i = Except.error e) →
      (connectWithRetry connect 3 service).attempts = 3 ∧
      (connectWithRetry connect 3 service).result = .error (terminalConnectMsg service 3)) ∧
    (∀ connect : Nat → Except String Unit,
      connect 0 = .ok () →
      (connectWithRetry connect 3 service).attempts = 1 ∧
      (connectWithRetry connect 3 service).result = .ok ()) := by
  constructor
  · intro connect hfail
    obtain ⟨e0, h0⟩ := hfail 0
    obtain ⟨e1, h1⟩ := hfail 1
    obtain ⟨e2, h2⟩ := hfail 2
    unfold connectWithRetry
    simp [retryLoop, h0, h1, h2]
  · intro connect h0
    unfold connectWithRetry
    simp [retryLoop, h0]

/-- Witness for C2: an always-failing connect exhausts the three attempts, a
first-try success stops after one. -/
theorem connect_policy_three_attempts_witness :
    ((connectWithRetry (fun _ => Except.error "connection refused") 3 "S3-like Storage").attempts
        = 3 ∧
      (connectWithRetry (fun _ => Except.error "connection refused") 3 "S3-like Storage").result
        = .error (terminalConnectMsg "S3-like Storage" 3)) ∧
    ((connectWithRetry (fun _ => Except.ok ()) 3 "S3-like Storage").attempts = 1 ∧
      (connectWithRetry (fun _ => Except.ok ()) 3 "S3-like Storage").result = .ok ()) :=
  ⟨(connect_policy_three_attempts "S3-like Storage").1 (fun _ => Except.error "connection refused")
      (fun _ => ⟨"connection refused", rfl⟩),
    (connect_policy_three_attempts "S3-like Storage").2 (fun _ => Except.ok ()) rfl⟩
